import Mathlib

/-!
Verification of the performance-management backend (Django/DRF).

The development shallowly embeds the code of
`backend/performance_management/{views.py, serializers.py, models.py}`:
the recap aggregation endpoint `recap_view`, the track range filter, the
`TrackSerializer` validation surface and the `Track.duration` property.

Modelling conventions:
* instants are integers counting microseconds since 1970-01-01T00:00:00Z
  (CPython datetimes have microsecond resolution);
* the calendar layer reproduces CPython `datetime.date` ordinal arithmetic
  (`_ymd2ord` / `_ord2ymd`), which underlies adding a `timedelta(days=k)`,
  `weekday()` and field validation used by `views.py`;
* fractional arithmetic (`total_seconds() / 60.0`, percentages, `round(x, 2)`)
  is modelled over `ℚ`, i.e. the exact values of the computation;
* the Django ORM / HTTP plumbing is the external collaborator: the Track
  store is a list of joined rows, an HTTP response is a sum of
  payload / 400-error / 500-error.
-/

/-! ## Calendar layer: CPython `datetime.date` ordinal arithmetic -/

/-- Gregorian leap year test, as CPython `datetime._is_leap`. -/
def isLeap (y : ℤ) : Prop := y % 4 = 0 ∧ (y % 100 ≠ 0 ∨ y % 400 = 0)

instance (y : ℤ) : Decidable (isLeap y) := by
  unfold isLeap; exact inferInstance

/-- Number of days in a month, as CPython `datetime._days_in_month`. -/
def daysInMonth (y m : ℤ) : ℤ :=
  if m = 2 then (if isLeap y then 29 else 28)
  else if m = 4 ∨ m = 6 ∨ m = 9 ∨ m = 11 then 30
  else 31

/-- Days in the year strictly before month `m`,
as CPython `datetime._days_before_month`. -/
def daysBeforeMonth (y m : ℤ) : ℤ :=
  (if m = 1 then 0 else if m = 2 then 31 else if m = 3 then 59 else if m = 4 then 90
   else if m = 5 then 120 else if m = 6 then 151 else if m = 7 then 181 else if m = 8 then 212
   else if m = 9 then 243 else if m = 10 then 273 else if m = 11 then 304 else 334)
  + (if 2 < m ∧ isLeap y then 1 else 0)

/-- Days before January 1st of year `y`, as CPython `datetime._days_before_year`. -/
def daysBeforeYear (y : ℤ) : ℤ :=
  (y - 1) * 365 + (y - 1) / 4 - (y - 1) / 100 + (y - 1) / 400

/-- Proleptic Gregorian ordinal of a date (0001-01-01 is day 1),
as CPython `datetime._ymd2ord`. -/
def ymd2ord (y m d : ℤ) : ℤ := daysBeforeYear y + daysBeforeMonth y m + d

/-- Month containing 0-based day-of-year `r1`, following the month table used
by CPython `datetime._ord2ymd` when it walks `_DAYS_BEFORE_MONTH`. -/
def monthOfDayOfYear (y r1 : ℤ) : ℤ :=
  let l : ℤ := if isLeap y then 1 else 0
  if r1 < 31 then 1
  else if r1 < 59 + l then 2
  else if r1 < 90 + l then 3
  else if r1 < 120 + l then 4
  else if r1 < 151 + l then 5
  else if r1 < 181 + l then 6
  else if r1 < 212 + l then 7
  else if r1 < 243 + l then 8
  else if r1 < 273 + l then 9
  else if r1 < 304 + l then 10
  else if r1 < 334 + l then 11
  else 12

/-- Inverse of `ymd2ord`, as CPython `datetime._ord2ymd`:
decompose into 400/100/4/1-year cycles with the two correction cases. -/
def ord2ymd (n0 : ℤ) : ℤ × ℤ × ℤ :=
  let n := n0 - 1
  let n400 := n / 146097
  let r400 := n % 146097
  let n100 := r400 / 36524
  let r100 := r400 % 36524
  let n4 := r100 / 1461
  let r4 := r100 % 1461
  let n1 := r4 / 365
  let r1 := r4 % 365
  let year := 400 * n400 + 100 * n100 + 4 * n4 + n1 + 1
  if n1 = 4 ∨ n100 = 4 then (year - 1, 12, 31)
  else
    let m := monthOfDayOfYear year r1
    (year, m, r1 - daysBeforeMonth year m + 1)

/-! ## Aware datetimes with fixed UTC offsets -/

/-- Microseconds per minute. -/
def usPerMin : ℤ := 60000000

/-- Microseconds per day. -/
def usPerDay : ℤ := 86400000000

/-- Proleptic Gregorian ordinal of 1970-01-01 (the epoch of our instants). -/
def epochOrdinal : ℤ := 719163

/-- A CPython `datetime.datetime` value: calendar/wall-clock fields plus an
optional fixed UTC offset in minutes (`none` = a naive datetime, as produced
by parsing a string without offset). -/
structure PyDatetime where
  year : ℤ
  month : ℤ
  day : ℤ
  hour : ℤ
  minute : ℤ
  second : ℤ
  microsecond : ℤ
  tzOffsetMinutes : Option ℤ
  deriving DecidableEq, Repr

/-- `date.toordinal()` of the datetime's date part. -/
def PyDatetime.toOrdinal (dt : PyDatetime) : ℤ := ymd2ord dt.year dt.month dt.day

/-- `datetime.weekday()`: Monday is 0, Sunday is 6. -/
def PyDatetime.weekday (dt : PyDatetime) : ℤ := (dt.toOrdinal + 6) % 7

/-- Wall-clock microseconds since the epoch (ignoring the offset). -/
def PyDatetime.wallMicros (dt : PyDatetime) : ℤ :=
  (dt.toOrdinal - epochOrdinal) * usPerDay +
    ((dt.hour * 3600 + dt.minute * 60 + dt.second) * 1000000 + dt.microsecond)

/-- The UTC instant (microseconds since the epoch) denoted by an aware
datetime; a naive datetime is treated as offset 0 (never used on naive
values by the embedding). -/
def PyDatetime.toInstant (dt : PyDatetime) : ℤ :=
  dt.wallMicros - dt.tzOffsetMinutes.getD 0 * usPerMin

/-- The aware datetime with offset `off` (minutes east of UTC) denoting the
UTC instant `t`: this is `datetime.astimezone` in terms of instants. -/
def pyFromInstant (t off : ℤ) : PyDatetime :=
  let localUs := t + off * usPerMin
  let dayNum := localUs / usPerDay
  let rem := localUs % usPerDay
  let c := ord2ymd (dayNum + epochOrdinal)
  { year := c.1, month := c.2.1, day := c.2.2,
    hour := rem / 3600000000,
    minute := rem / 60000000 % 60,
    second := rem / 1000000 % 60,
    microsecond := rem % 1000000,
    tzOffsetMinutes := some off }

/-- `dt.astimezone(tz)` for a fixed-offset `tz`: same instant, fields
recomputed in the new offset. -/
def pyAstimezone (dt : PyDatetime) (off : ℤ) : PyDatetime :=
  pyFromInstant dt.toInstant off

/-- `dt.replace(hour=0, minute=0, second=0, microsecond=0)`. -/
def pyReplaceMidnight (dt : PyDatetime) : PyDatetime :=
  { dt with hour := 0, minute := 0, second := 0, microsecond := 0 }

/-- `dt + timedelta(days=k)`: pure calendar-field arithmetic
(`toordinal`/`fromordinal`), the time fields and tzinfo are kept. -/
def pyAddDays (dt : PyDatetime) (k : ℤ) : PyDatetime :=
  let c := ord2ymd (dt.toOrdinal + k)
  { dt with year := c.1, month := c.2.1, day := c.2.2 }

/-- `dt + timedelta(days=k)` with the CPython range check: the result must
stay within year 1..9999, otherwise the addition raises `OverflowError`. -/
def pyAddDaysChecked (dt : PyDatetime) (k : ℤ) : Option PyDatetime :=
  let r := pyAddDays dt k
  if 1 ≤ r.year ∧ r.year ≤ 9999 then some r else none

/-! ## String helpers and parsing (CPython semantics) -/

/-- Python `repr` of a simple string (no quotes or escapes inside), as it
appears in error messages. -/
def pyRepr (s : String) : String := "'" ++ s ++ "'"

/-- Character-level `str.replace("Z", "+00:00")`. -/
def replaceZChars : List Char → List Char
  | [] => []
  | 'Z' :: rest => '+' :: '0' :: '0' :: ':' :: '0' :: '0' :: replaceZChars rest
  | c :: rest => c :: replaceZChars rest

/-- `value.replace("Z", "+00:00")`, the normalization applied by the views
before parsing ISO strings. -/
def pyNormalizeZ (s : String) : String := String.mk (replaceZChars s.data)

/-- The ASCII characters Python `int()` strips as whitespace: tab through
carriage return (0x09-0x0d) and the space. (Non-ASCII whitespace also
stripped by CPython, such as U+0085, is outside the modelled character
set; see `allAscii`.) -/
def isPySpace (c : Char) : Bool :=
  (9 ≤ c.toNat ∧ c.toNat ≤ 13) ∨ c.toNat = 32

/-- Decimal digit test. -/
def isDigitChar (c : Char) : Bool := '0' ≤ c ∧ c ≤ '9'

/-- Value of a decimal digit character. -/
def digitVal (c : Char) : ℤ := (c.toNat : ℤ) - 48

/-- Accumulate a digit list into a number. -/
def digitsToInt (cs : List Char) : ℤ :=
  cs.foldl (fun a c => a * 10 + digitVal c) 0

/-- After a leading digit, the rest of a Python integer literal body:
digits with single underscores allowed only between digits (PEP 515). -/
def pyDigitTail : List Char → Bool
  | [] => true
  | '_' :: c :: rest => isDigitChar c && pyDigitTail rest
  | c :: rest => isDigitChar c && pyDigitTail rest

/-- Python `int(s)` on a string: strips surrounding whitespace, accepts an
optional sign followed by decimal digits with optional underscore grouping
(PEP 515: single underscores strictly between digits); anything else raises
`ValueError` (modelled as `none`). The model covers ASCII arguments exactly;
non-ASCII decimal digits, which CPython also accepts, are outside it. -/
def pyInt (s : String) : Option ℤ :=
  let cs := ((s.data.dropWhile isPySpace).reverse.dropWhile isPySpace).reverse
  match cs with
  | [] => none
  | c :: rest =>
    let signDigits : ℤ × List Char :=
      if c = '-' then (-1, rest) else if c = '+' then (1, rest) else (1, c :: rest)
    match signDigits.2 with
    | [] => none
    | d :: ds =>
      if isDigitChar d && pyDigitTail ds then
        some (signDigits.1 * digitsToInt ((d :: ds).filter (fun ch => ch != '_')))
      else none

/-- All characters of a string are ASCII. Several theorems about failing
`int()` calls are scoped to ASCII arguments, where `pyInt` models `int()`
exactly; CPython additionally accepts non-ASCII decimal digits and strips
non-ASCII whitespace. -/
def allAscii (s : String) : Bool := s.data.all (fun c => c.toNat < 128)

/-- The `ValueError` message of a failed `int(s)`. -/
def pyIntErrMsg (s : String) : String :=
  "invalid literal for int() with base 10: " ++ pyRepr s

/-- Read exactly `k` decimal digits, returning the value and the rest. -/
def readFixedNat : ℕ → ℤ → List Char → Option (ℤ × List Char)
  | 0, acc, cs => some (acc, cs)
  | _ + 1, _, [] => none
  | k + 1, acc, c :: cs =>
    if isDigitChar c then readFixedNat k (acc * 10 + digitVal c) cs else none

/-- Expect a specific character. -/
def expectChar (c : Char) : List Char → Option (List Char)
  | [] => none
  | c2 :: cs => if c2 = c then some cs else none

/-- Components parsed from an ISO 8601 string, before range validation. -/
structure IsoParts where
  year : ℤ
  month : ℤ
  day : ℤ
  hour : ℤ
  minute : ℤ
  second : ℤ
  microsecond : ℤ
  tz : Option ℤ
  deriving DecidableEq, Repr

/-- The body of a UTC offset after the sign: `HH` or `HH:MM` or `HHMM`
(optional colon, minutes optional, as in CPython 3.11). Returns minutes.
Offsets with a seconds component, which CPython also accepts, are outside
the modelled subset (the timezone here is a whole number of minutes). -/
def parseOffTail (r : List Char) : Option ℤ :=
  match readFixedNat 2 0 r with
  | none => none
  | some (oh, r1) =>
    match r1 with
    | [] => if oh ≤ 23 then some (oh * 60) else none
    | c :: rest =>
      let r2 := if c = ':' then rest else r1
      match readFixedNat 2 0 r2 with
      | none => none
      | some (om, r3) =>
        if r3 = [] ∧ oh ≤ 23 ∧ om ≤ 59 then some (oh * 60 + om) else none

/-- Parse the trailing UTC-offset part (empty input means a naive
datetime). Offsets of 24 hours or more are rejected, as CPython rejects
them when constructing the `timezone`. -/
def parseIsoOffset : List Char → Option (Option ℤ)
  | [] => some none
  | '+' :: r => (parseOffTail r).map (fun v => some v)
  | '-' :: r => (parseOffTail r).map (fun v => some (-v))
  | _ => none

/-- A fractional-second part after the dot or comma: one to six digits
scaled to microseconds; CPython 3.11 reads further digits and ignores
them. -/
def parseIsoFraction (cs : List Char) : Option (ℤ × List Char) :=
  let digits := (cs.takeWhile isDigitChar).take 6
  if digits = [] then none
  else some (digitsToInt digits * (10 : ℤ) ^ (6 - digits.length),
    cs.dropWhile isDigitChar)

/-- Parse the time-of-day part as `datetime.fromisoformat` does in CPython
3.11: two-digit components with optional colons, minutes and seconds
optional (`HH`, `HH:MM`, `HHMM`, `HH:MM:SS`, ...), fractional seconds of
one to six digits after `.` or `,`, then an optional UTC offset. -/
def parseIsoTime (cs : List Char) : Option (ℤ × ℤ × ℤ × ℤ × Option ℤ) :=
  match readFixedNat 2 0 cs with
  | none => none
  | some (h, r1) =>
    match r1 with
    | [] => some (h, 0, 0, 0, none)
    | c :: rest =>
      if c = '+' ∨ c = '-' then
        match parseIsoOffset r1 with
        | none => none
        | some tz => some (h, 0, 0, 0, tz)
      else
        match readFixedNat 2 0 (if c = ':' then rest else r1) with
        | none => none
        | some (mi, r3) =>
          match r3 with
          | [] => some (h, mi, 0, 0, none)
          | c2 :: rest2 =>
            if c2 = '+' ∨ c2 = '-' then
              match parseIsoOffset r3 with
              | none => none
              | some tz => some (h, mi, 0, 0, tz)
            else
              match readFixedNat 2 0 (if c2 = ':' then rest2 else r3) with
              | none => none
              | some (sec, r5) =>
                match r5 with
                | c3 :: r6 =>
                  if c3 = '.' ∨ c3 = ',' then
                    match parseIsoFraction r6 with
                    | none => none
                    | some (us, r7) =>
                      match parseIsoOffset r7 with
                      | none => none
                      | some tz => some (h, mi, sec, us, tz)
                  else
                    match parseIsoOffset r5 with
                    | none => none
                    | some tz => some (h, mi, sec, 0, tz)
                | [] => some (h, mi, sec, 0, none)

/-- Parse `YYYY-MM-DD[<sep><time>]` where `<sep>` is any single character
(CPython 3.11 allows any separator, e.g. `T`, `t` or a space) and `<time>`
is as in `parseIsoTime`. This is the dash-separated subset of
`datetime.fromisoformat`; the compact `YYYYMMDD` and ISO week-date forms
that CPython 3.11 also accepts are outside the modelled subset, and no
theorem relies on the parser rejecting them. -/
def parseIsoCore (cs : List Char) : Option IsoParts :=
  match readFixedNat 4 0 cs with
  | none => none
  | some (y, r1) =>
    match expectChar '-' r1 with
    | none => none
    | some r2 =>
      match readFixedNat 2 0 r2 with
      | none => none
      | some (mo, r3) =>
        match expectChar '-' r3 with
        | none => none
        | some r4 =>
          match readFixedNat 2 0 r4 with
          | none => none
          | some (d, r5) =>
            match r5 with
            | [] => some ⟨y, mo, d, 0, 0, 0, 0, none⟩
            | _ :: r6 =>
              match parseIsoTime r6 with
              | none => none
              | some (h, mi, sec, us, tz) => some ⟨y, mo, d, h, mi, sec, us, tz⟩

/-- A Python exception relevant to the views: `ValueError`, which the
request handler catches into a 400, or `OverflowError`, which it does not
(the generic handler turns it into a 500). Each carries its `str(e)`. -/
inductive PyError where
  | valueError (msg : String)
  | overflowError (msg : String)
  deriving DecidableEq, Repr

/-- The C `int` bounds: the `datetime(...)` constructor converts each
argument with the `i` format, and a Python int outside this range raises
`OverflowError` before any field validation runs. -/
def intMinC : ℤ := -2147483648

/-- Upper C `int` bound, see `intMinC`. -/
def intMaxC : ℤ := 2147483647

/-- Conversion of a Python int argument to a C `int`, as getargs.c does
for the `i` format: a value outside the C `long` range fails inside
`PyLong_AsLong` with its message, a value inside `long` but outside `int`
gets getargs' own bound message. Returns the `OverflowError` message, or
`none` when the value fits. -/
def cIntConvert (v : ℤ) : Option String :=
  if v < -9223372036854775808 ∨ 9223372036854775807 < v then
    some "Python int too large to convert to C long"
  else if v < intMinC then some "signed integer is less than minimum"
  else if intMaxC < v then some "signed integer is greater than maximum"
  else none

/-- The first failing C `int` conversion among the positional arguments
(CPython converts them left to right and raises at the first failure). -/
def firstOverflow : List ℤ → Option String
  | [] => none
  | v :: rest =>
    match cIntConvert v with
    | some e => some e
    | none => firstOverflow rest

/-- The `datetime(...)` constructor: CPython first converts each argument
to a C `int` in positional order, raising `OverflowError` past the bounds
(see `cIntConvert`), then validates the fields in order, raising
`ValueError` with its messages. -/
def mkPyDatetimeChecked (y m d h mi sec us : ℤ) (tz : Option ℤ) :
    Except PyError PyDatetime :=
  match firstOverflow [y, m, d, h, mi, sec, us] with
  | some e => .error (.overflowError e)
  | none =>
    if ¬(1 ≤ y ∧ y ≤ 9999) then .error (.valueError ("year " ++ toString y ++ " is out of range"))
    else if ¬(1 ≤ m ∧ m ≤ 12) then .error (.valueError "month must be in 1..12")
    else if ¬(1 ≤ d ∧ d ≤ daysInMonth y m) then .error (.valueError "day is out of range for month")
    else if ¬(0 ≤ h ∧ h ≤ 23) then .error (.valueError "hour must be in 0..23")
    else if ¬(0 ≤ mi ∧ mi ≤ 59) then .error (.valueError "minute must be in 0..59")
    else if ¬(0 ≤ sec ∧ sec ≤ 59) then .error (.valueError "second must be in 0..59")
    else if ¬(0 ≤ us ∧ us ≤ 999999) then .error (.valueError "microsecond must be in 0..999999")
    else .ok ⟨y, m, d, h, mi, sec, us, tz⟩

/-- `datetime.fromisoformat(s)`: parse, then validate the fields; a string
that does not match the format raises
`ValueError: Invalid isoformat string: <repr>`. The parsed components have
at most six digits, so the constructor's overflow branches cannot fire
here. -/
def pyFromIsoformat (s : String) : Except PyError PyDatetime :=
  match parseIsoCore s.data with
  | none => .error (.valueError ("Invalid isoformat string: " ++ pyRepr s))
  | some p => mkPyDatetimeChecked p.year p.month p.day p.hour p.minute p.second
      p.microsecond p.tz

/-! ## Track store and serializer (models.py, serializers.py) -/

/-- A row of the Track table joined with its Activity (`select_related`), as
consumed by the recap aggregation. Times are UTC instants in microseconds;
the row order of `db` lists is the store's iteration order. -/
structure Track where
  id : ℤ
  user_id : ℤ
  activity_id : ℤ
  activity_name : String
  start_time : ℤ
  end_time : ℤ
  deriving DecidableEq, Repr

/-- models.py `Track.duration`: `(end_time - start_time).total_seconds()`,
a signed number of seconds computed on read. -/
def Track.duration (t : Track) : ℚ := ((t.end_time - t.start_time : ℤ) : ℚ) / 1000000

/-- The write payload accepted by `TrackSerializer` for create and update. -/
structure TrackWriteInput where
  user : ℤ
  activity : ℤ
  start_time : ℤ
  end_time : ℤ
  comment : Option String
  deriving DecidableEq, Repr

/-- serializers.py `TrackSerializer.is_valid` for create and update: the
writable fields are the `user` and `activity` primary keys (validated by
`PrimaryKeyRelatedField` against the respective tables), the two datetimes
(already structured here) and the optional comment; the serializer declares
no `validate` method, so no cross-field constraint relates the datetimes. -/
def trackSerializerIsValid (userIds activityIds : List ℤ)
    (inp : TrackWriteInput) : Bool :=
  userIds.contains inp.user && activityIds.contains inp.activity

/-! ## The recap aggregation endpoint (views.py recap_view) -/

/-- Recap duration of one track:
`(track.end_time - track.start_time).total_seconds() / 60.0`. -/
def durationMinutes (t : Track) : ℚ :=
  ((t.end_time - t.start_time : ℤ) : ℚ) / 1000000 / 60

/-- The store query
`filter(start_time__gte=start_range, start_time__lt=end_range)`. -/
def tracksInRange (db : List Track) (startRange endRange : ℤ) : List Track :=
  db.filter (fun t => decide (startRange ≤ t.start_time) &&
    decide (t.start_time < endRange))

/-- One accumulated row of `activity_stats`. -/
structure ActStat where
  activity_id : ℤ
  activity_name : String
  minutes : ℚ
  deriving DecidableEq, Repr

/-- Add one track to the `activity_stats` dict (keyed by activity id, in
insertion order; ids stay unique, so updating the first match is updating
the only match). The activity name is taken from the first track seen. -/
def addTrackToStats (t : Track) : List ActStat → List ActStat
  | [] => [⟨t.activity_id, t.activity_name, durationMinutes t⟩]
  | s :: rest =>
    if s.activity_id = t.activity_id then
      { s with minutes := s.minutes + durationMinutes t } :: rest
    else s :: addTrackToStats t rest

/-- The `activity_stats` accumulation loop over the fetched tracks. -/
def activity_stats (tracks : List Track) : List ActStat :=
  tracks.foldl (fun st t => addTrackToStats t st) []

/-- The running `total_minutes` accumulated by the same loop. -/
def totalMinutes (tracks : List Track) : ℚ := (tracks.map durationMinutes).sum

/-- The integer nearest `r`, ties to the even integer: the rounding CPython
`round` applies (on the exact value; the floats reaching `round` in the
views are exactly representable for the inputs considered). -/
def pyRoundHalfEvenInt (r : ℚ) : ℤ :=
  let f := ⌊r⌋
  if r - f < 1/2 then f
  else if 1/2 < r - f then f + 1
  else if f % 2 = 0 then f else f + 1

/-- Python `round(q, 2)`. -/
def pyRound2 (q : ℚ) : ℚ := ((pyRoundHalfEvenInt (q * 100) : ℤ) : ℚ) / 100

/-- One element of the response's `entries`. -/
structure RecapEntry where
  activity_id : ℤ
  activity_name : String
  minutes : ℚ
  percentage : ℚ
  deriving DecidableEq, Repr

/-- Shape one `activity_stats` row into a response entry:
`percentage = minutes / total_minutes * 100` when `total_minutes > 0` else 0,
both fields rounded to 2 decimals. -/
def recapEntryOf (total : ℚ) (s : ActStat) : RecapEntry :=
  { activity_id := s.activity_id, activity_name := s.activity_name,
    minutes := pyRound2 s.minutes,
    percentage := pyRound2 (if 0 < total then s.minutes / total * 100 else 0) }

/-- The response entries: shaped rows sorted by rounded `minutes`
descending (`entries.sort(key=..., reverse=True)`, a stable sort). -/
def recapEntries (tracks : List Track) : List RecapEntry :=
  List.insertionSort (fun a b => b.minutes ≤ a.minutes)
    ((activity_stats tracks).map (recapEntryOf (totalMinutes tracks)))

/-- Left-pad a nonnegative integer with zeros to `width` digits. -/
def padWithZeros (width : ℕ) (n : ℤ) : String :=
  let s := toString n.toNat
  String.mk (List.replicate (width - s.length) '0') ++ s

/-- English month name, as `strftime %B` in the C locale. -/
def monthName (m : ℤ) : String :=
  if m = 1 then "January" else if m = 2 then "February" else if m = 3 then "March"
  else if m = 4 then "April" else if m = 5 then "May" else if m = 6 then "June"
  else if m = 7 then "July" else if m = 8 then "August" else if m = 9 then "September"
  else if m = 10 then "October" else if m = 11 then "November" else "December"

/-- `strftime %Y-%m-%d`. -/
def fmtYMD (dt : PyDatetime) : String :=
  padWithZeros 4 dt.year ++ "-" ++ padWithZeros 2 dt.month ++ "-" ++ padWithZeros 2 dt.day

/-- `datetime.isoformat()` for our datetimes (microseconds omitted when 0;
offset as a signed HH:MM suffix for aware values). -/
def pyIsoformat (dt : PyDatetime) : String :=
  fmtYMD dt ++ "T" ++ padWithZeros 2 dt.hour ++ ":" ++ padWithZeros 2 dt.minute ++ ":" ++
    padWithZeros 2 dt.second ++
    (if dt.microsecond = 0 then "" else "." ++ padWithZeros 6 dt.microsecond) ++
    (match dt.tzOffsetMinutes with
     | none => ""
     | some o =>
       (if o < 0 then "-" else "+") ++ padWithZeros 2 (|o| / 60) ++ ":" ++
         padWithZeros 2 (|o| % 60))

/-- The period label built for the response. -/
def recapLabel (mode : String) (startLocal endLocal : PyDatetime) : String :=
  if mode = "daily" then fmtYMD startLocal
  else if mode = "weekly" then
    fmtYMD startLocal ++ " → " ++ fmtYMD (pyAddDays endLocal (-1))
  else monthName startLocal.month ++ " " ++ padWithZeros 4 startLocal.year

/-- The JSON payload of a successful recap response (`start`/`end` are the
`isoformat` strings of the local boundaries). -/
structure RecapPayload where
  mode : String
  label : String
  startIso : String
  endIso : String
  total_minutes : ℚ
  entries : List RecapEntry
  deriving DecidableEq, Repr

/-- A recap HTTP response: 200 payload, 400 `{"error": message}` or
500 `{"error": message}`. -/
inductive RecapResponse where
  | ok (payload : RecapPayload)
  | clientError (message : String)
  | serverError (message : String)
  deriving DecidableEq, Repr

/-- Filter, aggregate and shape the response body for a computed local
period (views.py lines 241-308). -/
def buildPayload (db : List Track) (mode : String)
    (startLocal endLocal : PyDatetime) : RecapPayload :=
  let tracks := tracksInRange db startLocal.toInstant endLocal.toInstant
  { mode := mode,
    label := recapLabel mode startLocal endLocal,
    startIso := pyIsoformat startLocal,
    endIso := pyIsoformat endLocal,
    total_minutes := pyRound2 (totalMinutes tracks),
    entries := recapEntries tracks }

/-- Result of the period-boundary computation: the local `[start, end)`
pair, a `ValueError`, an `OverflowError` (from the `datetime` argument
conversion or from date arithmetic), or the invalid-mode early return. -/
inductive RangeResult where
  | ok (startLocal endLocal : PyDatetime)
  | valueError (msg : String)
  | overflowError (msg : String)
  | invalidMode
  deriving DecidableEq, Repr

/-- CPython `repr` of `timedelta(minutes=m)` after normalization (days plus
seconds in `[0, 86400)`; the microsecond component is always zero here).
Zero components are omitted; the all-zero delta prints as
`datetime.timedelta(0)`. -/
def timedeltaReprOfMinutes (m : ℤ) : String :=
  let ts := m * 60
  let d := ts / 86400
  let s := ts % 86400
  if d = 0 ∧ s = 0 then "datetime.timedelta(0)"
  else if s = 0 then "datetime.timedelta(days=" ++ toString d ++ ")"
  else if d = 0 then "datetime.timedelta(seconds=" ++ toString s ++ ")"
  else "datetime.timedelta(days=" ++ toString d ++ ", seconds=" ++ toString s ++ ")"

/-- views.py lines 175-182: resolve the client timezone from `tz_offset`.
A non-integer raises `ValueError: Invalid tz_offset parameter` inside the
inner `try`; `timezone.get_fixed_timezone(-n)` then builds
`timezone(timedelta(minutes=-n))` outside it. The `timedelta` constructor
raises `OverflowError` when the normalized day count does not fit a C
`int`, or fits but exceeds 999999999 in magnitude; the `timezone`
constructor raises `ValueError` (naming the repr of the offending delta)
unless the offset is strictly between -24 and 24 hours. -/
def resolveClientOffset (tzp : Option String) (defaultOffset : ℤ) :
    Except PyError ℤ :=
  match tzp with
  | none => .ok defaultOffset
  | some s =>
    match pyInt s with
    | none => .error (.valueError "Invalid tz_offset parameter")
    | some n =>
      let d := (-n * 60) / 86400
      if d < intMinC ∨ intMaxC < d then
        .error (.overflowError "Python int too large to convert to C int")
      else if d < -999999999 ∨ 999999999 < d then
        .error (.overflowError ("days=" ++ toString d ++
          "; must have magnitude <= 999999999"))
      else if -1440 < -n ∧ -n < 1440 then .ok (-n)
      else
        .error (.valueError ("offset must be a timedelta strictly between -timedelta(hours=24) and timedelta(hours=24), not " ++
          timedeltaReprOfMinutes (-n) ++ "."))

/-- Python truthiness of an optional query parameter (`if date_param:`). -/
def paramPresent : Option String → Bool
  | none => false
  | some s => !s.isEmpty

/-- The raw string of a present parameter. -/
def paramStr (p : Option String) : String := p.getD ""

/-- views.py `parse_client_midnight`: normalize `Z`, parse, attach the
client timezone to naive values or convert aware ones, truncate to
midnight. -/
def parse_client_midnight (off : ℤ) (value : String) : Except PyError PyDatetime :=
  match pyFromIsoformat (pyNormalizeZ value) with
  | .error e => .error e
  | .ok dt =>
    let aware := match dt.tzOffsetMinutes with
      | none => { dt with tzOffsetMinutes := some off }
      | some _ => pyAstimezone dt off
    .ok (pyReplaceMidnight aware)

/-- views.py lines 197-204, daily mode. -/
def computeDaily (datep : Option String) (nowClient : PyDatetime) (off : ℤ) :
    RangeResult :=
  if paramPresent datep then
    match parse_client_midnight off (paramStr datep) with
    | .error (.valueError m) => .valueError m
    | .error (.overflowError m) => .overflowError m
    | .ok st =>
      match pyAddDaysChecked st 1 with
      | none => .overflowError "date value out of range"
      | some en => .ok st en
  else
    let st := pyReplaceMidnight nowClient
    match pyAddDaysChecked st 1 with
    | none => .overflowError "date value out of range"
    | some en => .ok st en

/-- views.py lines 206-215, weekly mode: a supplied `week_start` is used as
given; otherwise the Monday of the current client week. -/
def computeWeekly (weekp : Option String) (nowClient : PyDatetime) (off : ℤ) :
    RangeResult :=
  if paramPresent weekp then
    match parse_client_midnight off (paramStr weekp) with
    | .error (.valueError m) => .valueError m
    | .error (.overflowError m) => .overflowError m
    | .ok st =>
      match pyAddDaysChecked st 7 with
      | none => .overflowError "date value out of range"
      | some en => .ok st en
  else
    match pyAddDaysChecked nowClient (-(nowClient.weekday)) with
    | none => .overflowError "date value out of range"
    | some stRaw =>
      let st := pyReplaceMidnight stRaw
      match pyAddDaysChecked st 7 with
      | none => .overflowError "date value out of range"
      | some en => .ok st en

/-- views.py lines 217-233, monthly mode: explicit `year`/`month` (parsed
with `int`, validated by the `datetime` constructor) or the current client
month; the end boundary rolls December into January of the next year. The
`replace` calls validate through the constructor, so a rolled year above
9999 raises `ValueError`. -/
def computeMonthly (yearp monthp : Option String) (nowClient : PyDatetime)
    (off : ℤ) : RangeResult :=
  let startE : Except PyError PyDatetime :=
    if paramPresent yearp && paramPresent monthp then
      match pyInt (paramStr yearp) with
      | none => .error (.valueError (pyIntErrMsg (paramStr yearp)))
      | some yv =>
        match pyInt (paramStr monthp) with
        | none => .error (.valueError (pyIntErrMsg (paramStr monthp)))
        | some mv => mkPyDatetimeChecked yv mv 1 0 0 0 0 (some off)
    else
      .ok { nowClient with
              day := 1, hour := 0, minute := 0, second := 0, microsecond := 0 }
  match startE with
  | .error (.valueError m) => .valueError m
  | .error (.overflowError m) => .overflowError m
  | .ok st =>
    let endE : Except PyError PyDatetime :=
      if st.month = 12 then
        mkPyDatetimeChecked (st.year + 1) 1 st.day st.hour st.minute st.second
          st.microsecond st.tzOffsetMinutes
      else
        mkPyDatetimeChecked st.year (st.month + 1) st.day st.hour st.minute
          st.second st.microsecond st.tzOffsetMinutes
    match endE with
    | .error (.valueError m) => .valueError m
    | .error (.overflowError m) => .overflowError m
    | .ok en => .ok st en

/-- The mode dispatch of views.py lines 197-239, after
`now_client = timezone.now().astimezone(client_timezone)`. -/
def computeRange (mode : String) (datep weekp yearp monthp : Option String)
    (now off : ℤ) : RangeResult :=
  let nowClient := pyFromInstant now off
  if mode = "daily" then computeDaily datep nowClient off
  else if mode = "weekly" then computeWeekly weekp nowClient off
  else if mode = "monthly" then computeMonthly yearp monthp nowClient off
  else .invalidMode

/-- views.py `recap_view`: resolve the timezone, compute the period, filter,
aggregate and shape the response; `ValueError` is caught as a 400 with the
`Invalid date parameter:` prefix, the invalid-mode branch returns its own
400 directly, and any other exception (here `OverflowError`, whether from
the timezone resolution, the `datetime` argument conversion or date
arithmetic) falls to the generic 500 handler with `str(e)` as its body. -/
def recap_view (db : List Track) (now defaultOffset : ℤ) (mode : String)
    (datep weekp yearp monthp tzp : Option String) : RecapResponse :=
  match resolveClientOffset tzp defaultOffset with
  | .error (.valueError m) => .clientError ("Invalid date parameter: " ++ m)
  | .error (.overflowError m) => .serverError m
  | .ok off =>
    match computeRange mode datep weekp yearp monthp now off with
    | .invalidMode => .clientError "Invalid mode. Use daily, weekly, or monthly"
    | .valueError m => .clientError ("Invalid date parameter: " ++ m)
    | .overflowError m => .serverError m
    | .ok startLocal endLocal => .ok (buildPayload db mode startLocal endLocal)

/-- Entries of a successful response. -/
def RecapResponse.entriesOf : RecapResponse → Option (List RecapEntry)
  | .ok p => some p.entries
  | _ => none

/-- `total_minutes` of a successful response. -/
def RecapResponse.totalOf : RecapResponse → Option ℚ
  | .ok p => some p.total_minutes
  | _ => none

/-- `start` of a successful response. -/
def RecapResponse.startIsoOf : RecapResponse → Option String
  | .ok p => some p.startIso
  | _ => none

/-- `end` of a successful response. -/
def RecapResponse.endIsoOf : RecapResponse → Option String
  | .ok p => some p.endIso
  | _ => none

/-- Whether the response is a 400. -/
def RecapResponse.isClientError : RecapResponse → Bool
  | .clientError _ => true
  | _ => false

/-- UTC instant (microseconds) of a calendar date and time, a convenience
for concrete inputs. -/
def utcInstant (y m d h mi s : ℤ) : ℤ :=
  (ymd2ord y m d - epochOrdinal) * usPerDay + (h * 3600 + mi * 60 + s) * 1000000

/-! ## Definitions written from the claims, for refinement comparison -/

/-- Rounding half away from zero at 2 decimals. Written from the claim's
words, to be compared with the code's rounding. -/
def roundHalfAwayFromZero2 (q : ℚ) : ℚ :=
  (((if 0 ≤ q then ⌊q * 100 + 1/2⌋ else -⌊-(q * 100) + 1/2⌋) : ℤ) : ℚ) / 100

/-- Substring containment, used to state what an error message names. -/
def strContains (hay needle : String) : Prop := needle.data <:+: hay.data

instance (hay needle : String) : Decidable (strContains hay needle) := by
  unfold strContains; exact inferInstance

/-! ## Concrete stores and tracks used by the scenario facts -/

/-- A store with a single track whose `end_time` precedes its `start_time`
by 30 minutes. -/
def c9demo : List Track :=
  [⟨1, 1, 10, "Run", utcInstant 2024 3 10 6 0 0, utcInstant 2024 3 10 5 30 0⟩]

/-- The two-track store of scenario A (Run 30 minutes, Swim 15 minutes). -/
def c3demo : List Track :=
  [⟨1, 1, 10, "Run", utcInstant 2024 3 10 6 0 0, utcInstant 2024 3 10 6 30 0⟩,
   ⟨2, 1, 11, "Swim", utcInstant 2024 3 10 7 0 0, utcInstant 2024 3 10 7 15 0⟩]

/-- A store with one 7.5-second track: 0.125 minutes of activity. -/
def c6demo : List Track :=
  [⟨1, 1, 10, "Run", utcInstant 2024 3 10 6 0 0,
    utcInstant 2024 3 10 6 0 0 + 7500000⟩]

-- sanity checks of the calendar layer against known dates
example : ymd2ord 1970 1 1 = epochOrdinal := by decide
example : ord2ymd epochOrdinal = (1970, 1, 1) := by decide
example : ord2ymd (ymd2ord 2024 2 29) = (2024, 2, 29) := by decide
example : (PyDatetime.weekday ⟨2024, 3, 11, 0, 0, 0, 0, none⟩) = 0 := by decide
example : (PyDatetime.weekday ⟨2024, 3, 13, 0, 0, 0, 0, none⟩) = 2 := by decide
example : (PyDatetime.weekday ⟨1970, 1, 1, 0, 0, 0, 0, none⟩) = 3 := by decide

-- sanity checks of the parsing layer
example : pyInt "300" = some 300 := by decide
example : pyInt " -12 " = some (-12) := by decide
example : pyInt "abc" = none := by decide
example : pyInt "" = none := by decide
example : pyNormalizeZ "2024-03-10T04:30:00Z" = "2024-03-10T04:30:00+00:00" := by decide
example : pyFromIsoformat "2024-03-10" = .ok ⟨2024, 3, 10, 0, 0, 0, 0, none⟩ := rfl
example : pyFromIsoformat "2024-03-10T04:30:00+00:00" =
    .ok ⟨2024, 3, 10, 4, 30, 0, 0, some 0⟩ := rfl
example : pyFromIsoformat "not-a-date" =
    .error (.valueError "Invalid isoformat string: 'not-a-date'") := rfl
example : pyFromIsoformat "2024-13-01" =
    .error (.valueError "month must be in 1..12") := rfl
example : pyInt "1_2" = some 12 := by decide
example : pyInt "1__2" = none := by decide
example : pyInt "_12" = none := by decide
example : pyInt "12_" = none := by decide
example : pyFromIsoformat "2024-03-10T04" = .ok ⟨2024, 3, 10, 4, 0, 0, 0, none⟩ := rfl
example : pyFromIsoformat "2024-03-10t04:30" =
    .ok ⟨2024, 3, 10, 4, 30, 0, 0, none⟩ := rfl
example : pyFromIsoformat "2024-03-10T04:30:00.123" =
    .ok ⟨2024, 3, 10, 4, 30, 0, 123000, none⟩ := rfl
example : pyFromIsoformat "2024-03-10T0430" =
    .ok ⟨2024, 3, 10, 4, 30, 0, 0, none⟩ := rfl
example : pyFromIsoformat "2024-03-10T04:30-05" =
    .ok ⟨2024, 3, 10, 4, 30, 0, 0, some (-300)⟩ := rfl

-- sanity check: scenario A of the specification (daily, tz_offset=0,
-- date=2024-03-10, Run 06:00-06:30Z and Swim 07:00-07:15Z)
example :
    RecapResponse.totalOf (recap_view
      [⟨1, 1, 10, "Run", utcInstant 2024 3 10 6 0 0, utcInstant 2024 3 10 6 30 0⟩,
       ⟨2, 1, 11, "Swim", utcInstant 2024 3 10 7 0 0, utcInstant 2024 3 10 7 15 0⟩]
      (utcInstant 2024 3 15 0 0 0) 0 "daily" (some "2024-03-10") none none none
      (some "0")) = some 45 := by with_unfolding_all rfl

example :
    RecapResponse.entriesOf (recap_view
      [⟨1, 1, 10, "Run", utcInstant 2024 3 10 6 0 0, utcInstant 2024 3 10 6 30 0⟩,
       ⟨2, 1, 11, "Swim", utcInstant 2024 3 10 7 0 0, utcInstant 2024 3 10 7 15 0⟩]
      (utcInstant 2024 3 15 0 0 0) 0 "daily" (some "2024-03-10") none none none
      (some "0")) =
    some [⟨10, "Run", 30, 6667/100⟩, ⟨11, "Swim", 15, 3333/100⟩] := by
  with_unfolding_all rfl

example :
    RecapResponse.startIsoOf (recap_view [] (utcInstant 2024 3 15 0 0 0) 0 "daily"
      (some "2024-03-10") none none none (some "300")) =
    some "2024-03-10T00:00:00-05:00" := by with_unfolding_all rfl

/-! ## Helper lemmas: aggregation sums -/

/-- Adding a track to the stats adds its duration to the total of the
`minutes` column. -/
theorem sum_minutes_addTrackToStats (t : Track) (st : List ActStat) :
    (((addTrackToStats t st).map ActStat.minutes).sum : ℚ) =
      (st.map ActStat.minutes).sum + durationMinutes t := by
  induction st with
  | nil => simp [addTrackToStats]
  | cons s rest ih =>
    by_cases h : s.activity_id = t.activity_id
    · simp only [addTrackToStats, if_pos h, List.map_cons, List.sum_cons]
      ring
    · simp only [addTrackToStats, if_neg h, List.map_cons, List.sum_cons, ih]
      ring

/-- The fold that builds `activity_stats` preserves the total of the
`minutes` column. -/
theorem sum_minutes_foldl (l : List Track) (st : List ActStat) :
    ((l.foldl (fun s t => addTrackToStats t s) st).map ActStat.minutes).sum =
      (st.map ActStat.minutes).sum + (l.map durationMinutes).sum := by
  induction l generalizing st with
  | nil => simp
  | cons t l ih =>
    simp only [List.foldl_cons, List.map_cons, List.sum_cons, ih,
      sum_minutes_addTrackToStats]
    ring

/-- The `minutes` column of `activity_stats` sums to `total_minutes`: the
loop distributes every fetched track's duration into exactly one bucket. -/
theorem sum_minutes_activity_stats (l : List Track) :
    ((activity_stats l).map ActStat.minutes).sum = totalMinutes l := by
  have h := sum_minutes_foldl l []
  simpa [activity_stats, totalMinutes] using h

/-- Distribute a common division and factor over a list sum. -/
theorem sum_map_div_mul (l : List ActStat) (T : ℚ) :
    (l.map (fun s => s.minutes / T * 100)).sum =
      (l.map ActStat.minutes).sum / T * 100 := by
  induction l with
  | nil => simp
  | cons s rest ih =>
    simp only [List.map_cons, List.sum_cons, ih]
    ring

/-! ## Helper lemmas: rounding -/

/-- The integer produced by half-to-even rounding is within one half of the
argument. -/
theorem pyRoundHalfEvenInt_abs_le (r : ℚ) :
    |((pyRoundHalfEvenInt r : ℤ) : ℚ) - r| ≤ 1/2 := by
  have hf : ((⌊r⌋ : ℤ) : ℚ) ≤ r := Int.floor_le r
  have hc : r < ((⌊r⌋ : ℤ) : ℚ) + 1 := Int.lt_floor_add_one r
  simp only [pyRoundHalfEvenInt]
  split_ifs with h1 h2 h3
  · rw [abs_sub_comm, abs_of_nonneg (by linarith)]
    linarith
  · push_cast
    rw [abs_of_nonneg (by linarith)]
    linarith
  · rw [abs_sub_comm, abs_of_nonneg (by linarith)]
    linarith
  · push_cast
    rw [abs_of_nonneg (by linarith)]
    linarith

/-- `round(q, 2)` is within 1/200 of `q`. -/
theorem pyRound2_abs_le (q : ℚ) : |pyRound2 q - q| ≤ 1/200 := by
  have h := pyRoundHalfEvenInt_abs_le (q * 100)
  have heq : pyRound2 q - q = (((pyRoundHalfEvenInt (q * 100) : ℤ) : ℚ) - q * 100) / 100 := by
    simp only [pyRound2]
    ring
  rw [heq, abs_div]
  rw [show |(100 : ℚ)| = 100 from abs_of_pos (by norm_num)]
  linarith

/-- When `round(q, 2)` lands exactly half a cent away, the chosen multiple
of 1/100 is the even one. -/
theorem pyRound2_tie_even (q : ℚ) (h : |pyRound2 q - q| = 1/200) :
    pyRoundHalfEvenInt (q * 100) % 2 = 0 := by
  have heq : pyRound2 q - q = (((pyRoundHalfEvenInt (q * 100) : ℤ) : ℚ) - q * 100) / 100 := by
    simp only [pyRound2]
    ring
  rw [heq, abs_div, show |(100 : ℚ)| = 100 from abs_of_pos (by norm_num)] at h
  have habs : |((pyRoundHalfEvenInt (q * 100) : ℤ) : ℚ) - q * 100| = 1/2 := by linarith
  have hf : ((⌊q * 100⌋ : ℤ) : ℚ) ≤ q * 100 := Int.floor_le _
  have hc : q * 100 < ((⌊q * 100⌋ : ℤ) : ℚ) + 1 := Int.lt_floor_add_one _
  rw [abs_eq (by norm_num : (0:ℚ) ≤ 1/2)] at habs
  simp only [pyRoundHalfEvenInt] at habs ⊢
  split_ifs at habs ⊢ with h1 h2 h3
  · rcases habs with hx | hx <;> linarith
  · push_cast at habs
    rcases habs with hx | hx <;> linarith
  · exact h3
  · omega

/-- A list of rounded values sums to within `n/200` of the unrounded sum. -/
theorem abs_sum_pyRound2_sub_le (l : List ℚ) :
    |(l.map pyRound2).sum - l.sum| ≤ (l.length : ℚ) / 200 := by
  induction l with
  | nil => simp
  | cons a l ih =>
    simp only [List.map_cons, List.sum_cons, List.length_cons]
    have step : |pyRound2 a + (l.map pyRound2).sum - (a + l.sum)| ≤
        |pyRound2 a - a| + |(l.map pyRound2).sum - l.sum| := by
      have : pyRound2 a + (l.map pyRound2).sum - (a + l.sum) =
          (pyRound2 a - a) + ((l.map pyRound2).sum - l.sum) := by ring
      rw [this]
      exact abs_add _ _
    have hb := pyRound2_abs_le a
    push_cast
    linarith

/-- Rounding fixes zero. -/
theorem pyRound2_zero : pyRound2 0 = 0 := by
  simp only [pyRound2, pyRoundHalfEvenInt]
  norm_num

/-! ## Helper lemmas: staged reduction of recap_view -/

/-- A nonempty supplied parameter is truthy. -/
theorem paramPresent_some (s : String) (h : s ≠ "") :
    paramPresent (some s) = true := by
  have h2 : s.isEmpty = false :=
    Bool.eq_false_iff.mpr (fun hh => h ((String.isEmpty_iff s).mp hh))
  simp [paramPresent, h2]

/-- With a valid integer `tz_offset` in range, the client offset is its
negation. -/
theorem resolveClientOffset_some_ok (s : String) (d n : ℤ) (h : pyInt s = some n)
    (h1 : -1440 < n) (h2 : n < 1440) :
    resolveClientOffset (some s) d = .ok (-n) := by
  have hMin : intMinC = -2147483648 := rfl
  have hMax : intMaxC = 2147483647 := rfl
  simp only [resolveClientOffset, h]
  rw [if_neg (by omega), if_neg (by omega), if_pos ⟨by omega, by omega⟩]

/-- A non-integer `tz_offset` raises the tz ValueError. -/
theorem resolveClientOffset_some_err (s : String) (d : ℤ) (h : pyInt s = none) :
    resolveClientOffset (some s) d =
      .error (.valueError "Invalid tz_offset parameter") := by
  simp only [resolveClientOffset, h]

/-- A tz ValueError short-circuits the view into a 400. -/
theorem recap_view_tz_error (db : List Track) (now doff : ℤ) (mode : String)
    (dp wp yp mp tzp : Option String) (m : String)
    (h : resolveClientOffset tzp doff = .error (.valueError m)) :
    recap_view db now doff mode dp wp yp mp tzp =
      .clientError ("Invalid date parameter: " ++ m) := by
  unfold recap_view
  rw [h]

/-- A successful range computation yields the aggregated payload. -/
theorem recap_view_ok_range (db : List Track) (now doff : ℤ) (mode : String)
    (dp wp yp mp tzp : Option String) (off : ℤ) (st en : PyDatetime)
    (h1 : resolveClientOffset tzp doff = .ok off)
    (h2 : computeRange mode dp wp yp mp now off = .ok st en) :
    recap_view db now doff mode dp wp yp mp tzp =
      .ok (buildPayload db mode st en) := by
  unfold recap_view
  rw [h1]
  dsimp only
  rw [h2]

/-- A ValueError in the range computation yields the prefixed 400. -/
theorem recap_view_valueError (db : List Track) (now doff : ℤ) (mode : String)
    (dp wp yp mp tzp : Option String) (off : ℤ) (m : String)
    (h1 : resolveClientOffset tzp doff = .ok off)
    (h2 : computeRange mode dp wp yp mp now off = .valueError m) :
    recap_view db now doff mode dp wp yp mp tzp =
      .clientError ("Invalid date parameter: " ++ m) := by
  unfold recap_view
  rw [h1]
  dsimp only
  rw [h2]

/-- The invalid-mode early return. -/
theorem recap_view_invalidMode (db : List Track) (now doff : ℤ) (mode : String)
    (dp wp yp mp tzp : Option String) (off : ℤ)
    (h1 : resolveClientOffset tzp doff = .ok off)
    (h2 : computeRange mode dp wp yp mp now off = .invalidMode) :
    recap_view db now doff mode dp wp yp mp tzp =
      .clientError "Invalid mode. Use daily, weekly, or monthly" := by
  unfold recap_view
  rw [h1]
  dsimp only
  rw [h2]

/-- Mode dispatch, monthly. -/
theorem computeRange_monthly (dp wp yp mp : Option String) (now off : ℤ) :
    computeRange "monthly" dp wp yp mp now off =
      computeMonthly yp mp (pyFromInstant now off) off := rfl

/-- Mode dispatch, any other mode. -/
theorem computeRange_other (mode : String) (dp wp yp mp : Option String)
    (now off : ℤ) (h1 : mode ≠ "daily") (h2 : mode ≠ "weekly")
    (h3 : mode ≠ "monthly") :
    computeRange mode dp wp yp mp now off = .invalidMode := by
  simp only [computeRange]
  rw [if_neg h1, if_neg h2, if_neg h3]

/-- Every month has at most 31 days. -/
theorem daysInMonth_le (y m : ℤ) : daysInMonth y m ≤ 31 := by
  unfold daysInMonth
  split_ifs <;> norm_num

/-- A value inside the C `int` bounds converts without overflow. -/
theorem cIntConvert_none (v : ℤ) (h1 : intMinC ≤ v) (h2 : v ≤ intMaxC) :
    cIntConvert v = none := by
  have hMin : intMinC = -2147483648 := rfl
  have hMax : intMaxC = 2147483647 := rfl
  unfold cIntConvert
  rw [if_neg (by omega), if_neg (by omega), if_neg (by omega)]

/-- A fully valid field tuple passes the datetime constructor (fields in
the documented ranges are far inside the C `int` bounds). -/
theorem mkPyDatetimeChecked_ok (y m d : ℤ) (tz : Option ℤ)
    (hy : 1 ≤ y ∧ y ≤ 9999) (hm : 1 ≤ m ∧ m ≤ 12)
    (hd : 1 ≤ d ∧ d ≤ daysInMonth y m) :
    mkPyDatetimeChecked y m d 0 0 0 0 tz = .ok ⟨y, m, d, 0, 0, 0, 0, tz⟩ := by
  have hMin : intMinC = -2147483648 := rfl
  have hMax : intMaxC = 2147483647 := rfl
  have hdle : d ≤ 31 := le_trans hd.2 (daysInMonth_le y m)
  have hcy : cIntConvert y = none := cIntConvert_none y (by omega) (by omega)
  have hcm : cIntConvert m = none := cIntConvert_none m (by omega) (by omega)
  have hcd : cIntConvert d = none := cIntConvert_none d (by omega) (by omega)
  have hc0 : cIntConvert 0 = none := rfl
  have hov : firstOverflow [y, m, d, 0, 0, 0, 0] = none := by
    simp only [firstOverflow, hcy, hcm, hcd, hc0]
  unfold mkPyDatetimeChecked
  rw [hov]
  rw [if_neg (by simpa using hy), if_neg (by simpa using hm),
    if_neg (by simpa using hd), if_neg (by norm_num), if_neg (by norm_num),
    if_neg (by norm_num), if_neg (by norm_num)]

/-- Every month has at least 28 days. -/
theorem daysInMonth_ge (y m : ℤ) : 28 ≤ daysInMonth y m := by
  unfold daysInMonth
  split_ifs <;> norm_num

/-- C2: for every recap request with computed range `[start, end)`, the set
of Tracks aggregated is exactly those with `start ≤ start_time < end`; a
Track whose `start_time` equals the end boundary is excluded, and the
payload's entries and total are computed from exactly this filtered set. -/
theorem recap_c2_half_open :
    (∀ (db : List Track) (s e : ℤ) (t : Track),
      (t ∈ tracksInRange db s e ↔ t ∈ db ∧ s ≤ t.start_time ∧ t.start_time < e) ∧
      (t.start_time = e → t ∉ tracksInRange db s e)) ∧
    (∀ (db : List Track) (mode : String) (st en : PyDatetime),
      (buildPayload db mode st en).entries =
        recapEntries (tracksInRange db st.toInstant en.toInstant) ∧
      (buildPayload db mode st en).total_minutes =
        pyRound2 (totalMinutes (tracksInRange db st.toInstant en.toInstant))) := by
  constructor
  · intro db s e t
    have hiff : t ∈ tracksInRange db s e ↔
        t ∈ db ∧ s ≤ t.start_time ∧ t.start_time < e := by
      simp [tracksInRange, List.mem_filter]
    refine ⟨hiff, fun he hin => ?_⟩
    have hlt := (hiff.mp hin).2.2
    omega
  · intro db mode st en
    exact ⟨rfl, rfl⟩

/-- C2 witness: a Track starting exactly at the end boundary is not
aggregated. -/
theorem recap_c2_half_open_witness :
    (⟨1, 1, 10, "Run", 100, 200⟩ : Track) ∉
      tracksInRange [⟨1, 1, 10, "Run", 100, 200⟩] 0 100 :=
  (recap_c2_half_open.1 [⟨1, 1, 10, "Run", 100, 200⟩] 0 100
    ⟨1, 1, 10, "Run", 100, 200⟩).2 rfl

/-- C9: neither create nor update validation of `TrackSerializer` relates
`end_time` to `start_time` (validity is invariant under any choice of the
two datetimes), the model's `duration` is the signed difference, the recap
duration is that difference in minutes, and a track with
`end_time ≤ start_time` validates and enters the recap aggregates with its
zero-or-negative minutes: with the 30-minutes-backwards store the daily
recap returns `total_minutes = -30` and an entry of -30 minutes. -/
theorem recap_c9_no_ordering_enforcement :
    (∀ (userIds activityIds : List ℤ) (u a s1 e1 s2 e2 : ℤ) (c : Option String),
      trackSerializerIsValid userIds activityIds ⟨u, a, s1, e1, c⟩ =
        trackSerializerIsValid userIds activityIds ⟨u, a, s2, e2, c⟩) ∧
    (∀ t : Track, Track.duration t = ((t.end_time - t.start_time : ℤ) : ℚ) / 1000000) ∧
    (∀ t : Track, durationMinutes t = Track.duration t / 60) ∧
    trackSerializerIsValid [1] [10]
      ⟨1, 10, utcInstant 2024 3 10 6 0 0, utcInstant 2024 3 10 5 30 0, none⟩ = true ∧
    RecapResponse.totalOf (recap_view c9demo (utcInstant 2024 3 15 0 0 0) 0 "daily"
      (some "2024-03-10") none none none (some "0")) = some (-30) ∧
    RecapResponse.entriesOf (recap_view c9demo (utcInstant 2024 3 15 0 0 0) 0 "daily"
      (some "2024-03-10") none none none (some "0")) =
      some [⟨10, "Run", -30, 0⟩] := by
  refine ⟨fun _ _ _ _ _ _ _ _ _ => rfl, fun t => rfl, fun t => rfl, ?_, ?_, ?_⟩
  · with_unfolding_all rfl
  · with_unfolding_all rfl
  · with_unfolding_all rfl

set_option maxHeartbeats 1600000 in
/-- C3: the unrounded percentage of each entry is `100 × minutes /
total_minutes` when the total is positive and 0 when it is zero; the
unrounded percentages sum to exactly 100 when the total is positive, the
returned (rounded) percentages sum to 100 within the rounding tolerance of
half a cent per entry, and every returned percentage is 0 when the total
is zero. -/
theorem recap_c3_percentages :
    ∀ tracks : List Track,
      (0 < totalMinutes tracks →
        ((activity_stats tracks).map
          (fun s => s.minutes / totalMinutes tracks * 100)).sum = 100 ∧
        |((recapEntries tracks).map RecapEntry.percentage).sum - 100| ≤
          ((recapEntries tracks).length : ℚ) / 200) ∧
      (totalMinutes tracks = 0 →
        ∀ e ∈ recapEntries tracks, e.percentage = 0) := by
  intro tracks
  constructor
  · intro hpos
    have hT : totalMinutes tracks ≠ 0 := ne_of_gt hpos
    have hsum : ((activity_stats tracks).map
        (fun s => s.minutes / totalMinutes tracks * 100)).sum = 100 := by
      rw [sum_map_div_mul, sum_minutes_activity_stats]
      field_simp
    refine ⟨hsum, ?_⟩
    have hperm : List.Perm (recapEntries tracks)
        ((activity_stats tracks).map (recapEntryOf (totalMinutes tracks))) :=
      List.perm_insertionSort _ _
    have hmapped : ((recapEntries tracks).map RecapEntry.percentage).sum =
        (((activity_stats tracks).map
          (recapEntryOf (totalMinutes tracks))).map RecapEntry.percentage).sum :=
      (hperm.map RecapEntry.percentage).sum_eq
    have hcomp : ((activity_stats tracks).map
          (recapEntryOf (totalMinutes tracks))).map RecapEntry.percentage =
        ((activity_stats tracks).map
          (fun s => s.minutes / totalMinutes tracks * 100)).map pyRound2 := by
      simp only [List.map_map]
      refine List.map_congr_left (fun s _ => ?_)
      simp [recapEntryOf, if_pos hpos]
    have hlen : ((recapEntries tracks).length : ℚ) =
        (((activity_stats tracks).map
          (fun s => s.minutes / totalMinutes tracks * 100)).length : ℚ) := by
      rw [hperm.length_eq, List.length_map, List.length_map]
    have hbound := abs_sum_pyRound2_sub_le
      ((activity_stats tracks).map (fun s => s.minutes / totalMinutes tracks * 100))
    rw [hsum] at hbound
    rw [hmapped, hcomp, hlen]
    exact hbound
  · intro h0 e he
    have hmem : e ∈ (activity_stats tracks).map
        (recapEntryOf (totalMinutes tracks)) :=
      (List.perm_insertionSort _ _).mem_iff.mp he
    obtain ⟨s, _, rfl⟩ := List.mem_map.mp hmem
    simp [recapEntryOf, h0, pyRound2_zero]

/-- C3 witness: with 45 total minutes the unrounded percentages sum to 100
and the rounded ones are within the tolerance. -/
theorem recap_c3_percentages_witness :
    ((activity_stats c3demo).map
      (fun s => s.minutes / totalMinutes c3demo * 100)).sum = 100 ∧
    |((recapEntries c3demo).map RecapEntry.percentage).sum - 100| ≤
      ((recapEntries c3demo).length : ℚ) / 200 :=
  (recap_c3_percentages c3demo).1 (of_decide_eq_true (by with_unfolding_all rfl))

/-- C6 counterexample: the raw total of the 7.5-second store is 1/8 = 0.125
minutes; round-half-away-from-zero would return 0.13, but the view returns
`total_minutes = 0.12` (Python `round` ties to even), so the rounding is
not half-away-from-zero. -/
theorem recap_c6_counterexample :
    totalMinutes c6demo = 1/8 ∧
    roundHalfAwayFromZero2 (1/8) = 13/100 ∧
    RecapResponse.totalOf (recap_view c6demo (utcInstant 2024 3 15 0 0 0) 0 "daily"
      (some "2024-03-10") none none none (some "0")) = some (12/100) ∧
    (12/100 : ℚ) ≠ 13/100 := by
  refine ⟨?_, ?_, ?_, ?_⟩
  · with_unfolding_all rfl
  · with_unfolding_all rfl
  · with_unfolding_all rfl
  · norm_num

/-- C6 amended: the per-entry `minutes` and `percentage` and the top-level
`total_minutes` are rounded to 2 decimal places with Python `round`, i.e.
to the nearest multiple of 1/100 with ties going to the even multiple
(round-half-to-even), not half away from zero. -/
theorem recap_c6_rounding_amended :
    (∀ q : ℚ,
      pyRound2 q = ((pyRoundHalfEvenInt (q * 100) : ℤ) : ℚ) / 100 ∧
      |pyRound2 q - q| ≤ 1/200 ∧
      (|pyRound2 q - q| = 1/200 → pyRoundHalfEvenInt (q * 100) % 2 = 0)) ∧
    (∀ (db : List Track) (mode : String) (st en : PyDatetime),
      (buildPayload db mode st en).total_minutes =
        pyRound2 (totalMinutes (tracksInRange db st.toInstant en.toInstant))) ∧
    (∀ (tracks : List Track) (e : RecapEntry), e ∈ recapEntries tracks →
      ∃ s ∈ activity_stats tracks,
        e.minutes = pyRound2 s.minutes ∧
        e.percentage = pyRound2 (if 0 < totalMinutes tracks then
          s.minutes / totalMinutes tracks * 100 else 0)) := by
  refine ⟨fun q => ⟨rfl, pyRound2_abs_le q, pyRound2_tie_even q⟩,
    fun db mode st en => rfl, fun tracks e he => ?_⟩
  have hmem : e ∈ (activity_stats tracks).map
      (recapEntryOf (totalMinutes tracks)) :=
    (List.perm_insertionSort _ _).mem_iff.mp he
  obtain ⟨s, hs, rfl⟩ := List.mem_map.mp hmem
  exact ⟨s, hs, rfl, rfl⟩

/-- C6 amended witness: the single entry of the 7.5-second store is the
half-to-even rounding of its raw stats row. -/
theorem recap_c6_rounding_amended_witness :
    ∃ s ∈ activity_stats c6demo,
      (⟨10, "Run", 12/100, 100⟩ : RecapEntry).minutes = pyRound2 s.minutes ∧
      (⟨10, "Run", 12/100, 100⟩ : RecapEntry).percentage =
        pyRound2 (if 0 < totalMinutes c6demo then
          s.minutes / totalMinutes c6demo * 100 else 0) :=
  recap_c6_rounding_amended.2.2 c6demo ⟨10, "Run", 12/100, 100⟩
    (of_decide_eq_true (by with_unfolding_all rfl))

/-- C7 counterexample: with `mode="yearly"` and a malformed
`tz_offset="abc"` the response is still a 400, but its body names the
tz_offset parameter, not "Invalid mode". -/
theorem recap_c7_counterexample :
    recap_view [] 0 0 "yearly" none none none none (some "abc") =
      .clientError "Invalid date parameter: Invalid tz_offset parameter" ∧
    ¬ strContains "Invalid date parameter: Invalid tz_offset parameter"
      "Invalid mode" := by
  constructor
  · with_unfolding_all rfl
  · decide

/-- C7 amended: for a mode outside daily/weekly/monthly, the response is
the 400 naming "Invalid mode" whenever `tz_offset` is absent or parses as
an in-range integer; an ASCII non-integer `tz_offset` is instead reported
first, as a 400 naming the tz_offset parameter. (The mode check is never
reached when `tz_offset` fails: in particular an astronomically large
integer `tz_offset` overflows the `timedelta` constructor into a 500, so
no unconditional 400 holds.) -/
theorem recap_c7_invalid_mode_amended :
    ∀ (db : List Track) (now doff : ℤ) (mode : String)
      (dp wp yp mp tzp : Option String),
      mode ≠ "daily" → mode ≠ "weekly" → mode ≠ "monthly" →
      ((tzp = none ∨ ∃ s n, tzp = some s ∧ pyInt s = some n ∧
          -1440 < n ∧ n < 1440) →
        recap_view db now doff mode dp wp yp mp tzp =
          .clientError "Invalid mode. Use daily, weekly, or monthly") ∧
      (∀ s, tzp = some s → allAscii s = true → pyInt s = none →
        recap_view db now doff mode dp wp yp mp tzp =
          .clientError "Invalid date parameter: Invalid tz_offset parameter") := by
  intro db now doff mode dp wp yp mp tzp h1 h2 h3
  constructor
  · rintro (rfl | ⟨s, n, rfl, hint, hr1, hr2⟩)
    · exact recap_view_invalidMode db now doff mode dp wp yp mp none doff rfl
        (computeRange_other mode dp wp yp mp now doff h1 h2 h3)
    · exact recap_view_invalidMode db now doff mode dp wp yp mp (some s) (-n)
        (resolveClientOffset_some_ok s doff n hint hr1 hr2)
        (computeRange_other mode dp wp yp mp now (-n) h1 h2 h3)
  · rintro s rfl _ hnone
    exact recap_view_tz_error db now doff mode dp wp yp mp (some s) _
      (resolveClientOffset_some_err s doff hnone)

/-- C7 amended witness: `mode="yearly"` with no other parameters yields the
"Invalid mode" 400. -/
theorem recap_c7_invalid_mode_amended_witness :
    recap_view [] 0 0 "yearly" none none none none none =
      .clientError "Invalid mode. Use daily, weekly, or monthly" :=
  (recap_c7_invalid_mode_amended [] 0 0 "yearly" none none none none none
    (by decide) (by decide) (by decide)).1 (Or.inl rfl)

/-- The datetime constructor rejects a field tuple whose year and month are
inside the C int bounds but whose month is outside 1..12 with some
ValueError (never an OverflowError). -/
theorem mkPyDatetimeChecked_month_err (yv mv : ℤ) (tz : Option ℤ)
    (hyC : intMinC ≤ yv ∧ yv ≤ intMaxC) (hmC : intMinC ≤ mv ∧ mv ≤ intMaxC)
    (hout : mv < 1 ∨ 12 < mv) :
    ∃ me, mkPyDatetimeChecked yv mv 1 0 0 0 0 tz = .error (.valueError me) := by
  have hcy : cIntConvert yv = none := cIntConvert_none yv hyC.1 hyC.2
  have hcm : cIntConvert mv = none := cIntConvert_none mv hmC.1 hmC.2
  have hc1 : cIntConvert 1 = none := rfl
  have hc0 : cIntConvert 0 = none := rfl
  have hov : firstOverflow [yv, mv, 1, 0, 0, 0, 0] = none := by
    simp only [firstOverflow, hcy, hcm, hc1, hc0]
  unfold mkPyDatetimeChecked
  rw [hov]
  split_ifs <;> first
    | exact ⟨_, rfl⟩
    | omega

/-- C10 counterexample: the claim's "never with a 500" is false. With
`year=2024` and `month=9999999999`, both `int()` calls succeed, but the
month exceeds the C int range, so `datetime(2024, 9999999999, 1)` raises
`OverflowError` instead of `ValueError`; the `except ValueError` handler
does not catch it and the view returns a 500. -/
theorem recap_c10_counterexample :
    recap_view [] 0 0 "monthly" none none (some "2024") (some "9999999999")
      none = .serverError "signed integer is greater than maximum" := by
  with_unfolding_all rfl

/-- C10 amended: a monthly request supplying `year` and `month` (ASCII
strings, where the `int()` model is exact) yields a 400 when the year is a
non-integer string, or parses within the C int bounds and the month is a
non-integer string or parses within the C int bounds to a value outside
1..12 (the `ValueError` from `int` or from the `datetime` constructor is
caught at the request boundary) - provided the timezone resolution itself
raises at most a ValueError; a year or month beyond the C int bounds
instead raises `OverflowError`, which escapes to the 500 handler. -/
theorem recap_c10_monthly_param_errors :
    ∀ (db : List Track) (now doff : ℤ) (dp wp tzp : Option String)
      (ys ms : String),
      ys ≠ "" → ms ≠ "" → allAscii ys = true → allAscii ms = true →
      ((∃ m, resolveClientOffset tzp doff = .error (.valueError m)) ∨
        ∃ off, resolveClientOffset tzp doff = .ok off) →
      (pyInt ys = none ∨
        ∃ yv, pyInt ys = some yv ∧ intMinC ≤ yv ∧ yv ≤ intMaxC ∧
          (pyInt ms = none ∨
            ∃ mv, pyInt ms = some mv ∧ intMinC ≤ mv ∧ mv ≤ intMaxC ∧
              (mv < 1 ∨ 12 < mv))) →
      ∃ msg, recap_view db now doff "monthly" dp wp (some ys) (some ms) tzp =
        .clientError msg := by
  intro db now doff dp wp tzp ys ms hys hms _ _ htzok hbad
  rcases htzok with ⟨m, htz⟩ | ⟨off, htz⟩
  · exact ⟨_, recap_view_tz_error db now doff "monthly" dp wp
      (some ys) (some ms) tzp m htz⟩
  · have hrange : ∃ m2, computeRange "monthly" dp wp (some ys) (some ms) now off =
        .valueError m2 := by
      rw [computeRange_monthly]
      simp only [computeMonthly, paramPresent_some ys hys,
        paramPresent_some ms hms, Bool.and_self, if_true, paramStr, Option.getD]
      rcases hbad with hb | ⟨yv, hyv, hy1, hy2, hb⟩
      · rw [hb]
        exact ⟨_, rfl⟩
      · rw [hyv]
        dsimp only
        rcases hb with hb | ⟨mv, hmv, hm1, hm2, hout⟩
        · rw [hb]
          exact ⟨_, rfl⟩
        · rw [hmv]
          dsimp only
          obtain ⟨me, hme⟩ := mkPyDatetimeChecked_month_err yv mv (some off)
            ⟨hy1, hy2⟩ ⟨hm1, hm2⟩ hout
          rw [hme]
          exact ⟨_, rfl⟩
    obtain ⟨m2, hr⟩ := hrange
    exact ⟨_, recap_view_valueError db now doff "monthly" dp wp (some ys)
      (some ms) tzp off m2 htz hr⟩

/-- C10 amended witness: `year=2024, month=13` yields a 400. -/
theorem recap_c10_monthly_param_errors_witness :
    ∃ msg, recap_view [] 0 0 "monthly" none none (some "2024") (some "13")
      (some "0") = .clientError msg :=
  recap_c10_monthly_param_errors [] 0 0 none none (some "0") "2024" "13"
    (by decide) (by decide) (by decide) (by decide)
    (Or.inr ⟨0, rfl⟩)
    (Or.inr ⟨2024, by decide, by decide, by decide,
      Or.inr ⟨13, by decide, by decide, by decide, by omega⟩⟩)

/-- Monthly range with explicit, valid `year` and `month`: the first of that
month to the first of the next, rolling December into January. -/
theorem computeMonthly_explicit (ys ms : String) (yv mv : ℤ)
    (nowC : PyDatetime) (off : ℤ) (hys : ys ≠ "") (hms : ms ≠ "")
    (hy : pyInt ys = some yv) (hm : pyInt ms = some mv)
    (hy1 : 1 ≤ yv) (hy2 : yv ≤ 9999) (hm1 : 1 ≤ mv) (hm2 : mv ≤ 12)
    (hdec : mv = 12 → yv ≤ 9998) :
    computeMonthly (some ys) (some ms) nowC off =
      .ok ⟨yv, mv, 1, 0, 0, 0, 0, some off⟩
        ⟨if mv = 12 then yv + 1 else yv, if mv = 12 then 1 else mv + 1,
         1, 0, 0, 0, 0, some off⟩ := by
  have hstart := mkPyDatetimeChecked_ok yv mv 1 (some off) ⟨hy1, hy2⟩ ⟨hm1, hm2⟩
    ⟨le_refl 1, le_trans (by norm_num) (daysInMonth_ge yv mv)⟩
  simp only [computeMonthly, paramPresent_some ys hys, paramPresent_some ms hms,
    Bool.and_self, if_true, paramStr, Option.getD, hy, hm, hstart]
  by_cases h12 : mv = 12
  · have hend := mkPyDatetimeChecked_ok (yv + 1) 1 1 (some off)
      ⟨by omega, by omega⟩ ⟨by norm_num, by norm_num⟩
      ⟨le_refl 1, le_trans (by norm_num) (daysInMonth_ge (yv + 1) 1)⟩
    simp only [h12, eq_self_iff_true, if_true, hend]
  · have hend := mkPyDatetimeChecked_ok yv (mv + 1) 1 (some off)
      ⟨hy1, hy2⟩ ⟨by omega, by omega⟩
      ⟨le_refl 1, le_trans (by norm_num) (daysInMonth_ge yv (mv + 1))⟩
    simp only [if_neg h12, hend]

/-- Monthly range with `year` or `month` missing or empty: the first of the
current client month, rolling December into January. -/
theorem computeMonthly_default (yp mp : Option String) (nowC : PyDatetime)
    (off : ℤ) (hpm : (paramPresent yp && paramPresent mp) = false)
    (h1 : 1 ≤ nowC.year) (h2 : nowC.year ≤ 9999)
    (h3 : 1 ≤ nowC.month) (h4 : nowC.month ≤ 12)
    (h5 : nowC.month = 12 → nowC.year ≤ 9998) :
    computeMonthly yp mp nowC off =
      .ok ⟨nowC.year, nowC.month, 1, 0, 0, 0, 0, nowC.tzOffsetMinutes⟩
        ⟨if nowC.month = 12 then nowC.year + 1 else nowC.year,
         if nowC.month = 12 then 1 else nowC.month + 1,
         1, 0, 0, 0, 0, nowC.tzOffsetMinutes⟩ := by
  simp only [computeMonthly, hpm, Bool.false_eq_true, if_false]
  by_cases h12 : nowC.month = 12
  · have hend := mkPyDatetimeChecked_ok (nowC.year + 1) 1 1 nowC.tzOffsetMinutes
      ⟨by omega, by omega⟩ ⟨by norm_num, by norm_num⟩
      ⟨le_refl 1, le_trans (by norm_num) (daysInMonth_ge (nowC.year + 1) 1)⟩
    simp only [h12, eq_self_iff_true, if_true, hend]
  · have hend := mkPyDatetimeChecked_ok nowC.year (nowC.month + 1)
      1 nowC.tzOffsetMinutes ⟨h1, h2⟩ ⟨by omega, by omega⟩
      ⟨le_refl 1, le_trans (by norm_num) (daysInMonth_ge nowC.year (nowC.month + 1))⟩
    simp only [if_neg h12, hend]

/-- C5: in monthly mode with both `year` and `month` supplied as valid
integers, the period is the client-local first of that month (midnight) to
the first of the following month, rolling the year forward when the month
is December; with either parameter missing, the current client month is
used the same way. In particular `year=2024, month=12` yields
2024-12-01T00:00:00 to 2025-01-01T00:00:00. -/
theorem recap_c5_monthly :
    (∀ (db : List Track) (now doff : ℤ) (dp wp : Option String)
      (ys ms tzs : String) (yv mv n : ℤ),
      ys ≠ "" → ms ≠ "" →
      pyInt ys = some yv → pyInt ms = some mv →
      pyInt tzs = some n → -1440 < n → n < 1440 →
      1 ≤ yv → yv ≤ 9999 → 1 ≤ mv → mv ≤ 12 → (mv = 12 → yv ≤ 9998) →
      recap_view db now doff "monthly" dp wp (some ys) (some ms) (some tzs) =
        .ok (buildPayload db "monthly" ⟨yv, mv, 1, 0, 0, 0, 0, some (-n)⟩
          ⟨if mv = 12 then yv + 1 else yv, if mv = 12 then 1 else mv + 1,
           1, 0, 0, 0, 0, some (-n)⟩)) ∧
    (∀ (db : List Track) (now doff : ℤ) (dp wp yp mp : Option String)
      (tzs : String) (n : ℤ),
      (paramPresent yp && paramPresent mp) = false →
      pyInt tzs = some n → -1440 < n → n < 1440 →
      1 ≤ (pyFromInstant now (-n)).year → (pyFromInstant now (-n)).year ≤ 9999 →
      1 ≤ (pyFromInstant now (-n)).month → (pyFromInstant now (-n)).month ≤ 12 →
      ((pyFromInstant now (-n)).month = 12 → (pyFromInstant now (-n)).year ≤ 9998) →
      recap_view db now doff "monthly" dp wp yp mp (some tzs) =
        .ok (buildPayload db "monthly"
          ⟨(pyFromInstant now (-n)).year, (pyFromInstant now (-n)).month,
           1, 0, 0, 0, 0, (pyFromInstant now (-n)).tzOffsetMinutes⟩
          ⟨if (pyFromInstant now (-n)).month = 12 then
              (pyFromInstant now (-n)).year + 1 else (pyFromInstant now (-n)).year,
           if (pyFromInstant now (-n)).month = 12 then 1
             else (pyFromInstant now (-n)).month + 1,
           1, 0, 0, 0, 0, (pyFromInstant now (-n)).tzOffsetMinutes⟩)) ∧
    RecapResponse.startIsoOf (recap_view [] (utcInstant 2024 3 13 12 0 0) 0
      "monthly" none none (some "2024") (some "12") (some "0")) =
      some "2024-12-01T00:00:00+00:00" ∧
    RecapResponse.endIsoOf (recap_view [] (utcInstant 2024 3 13 12 0 0) 0
      "monthly" none none (some "2024") (some "12") (some "0")) =
      some "2025-01-01T00:00:00+00:00" := by
  refine ⟨?_, ?_, ?_, ?_⟩
  · intro db now doff dp wp ys ms tzs yv mv n hys hms hy hm ht hr1 hr2
      hy1 hy2 hm1 hm2 hdec
    have htz := resolveClientOffset_some_ok tzs doff n ht hr1 hr2
    have hrange : computeRange "monthly" dp wp (some ys) (some ms) now (-n) =
        .ok ⟨yv, mv, 1, 0, 0, 0, 0, some (-n)⟩
          ⟨if mv = 12 then yv + 1 else yv, if mv = 12 then 1 else mv + 1,
           1, 0, 0, 0, 0, some (-n)⟩ := by
      rw [computeRange_monthly]
      exact computeMonthly_explicit ys ms yv mv _ (-n) hys hms hy hm
        hy1 hy2 hm1 hm2 hdec
    exact recap_view_ok_range db now doff "monthly" dp wp (some ys) (some ms)
      (some tzs) (-n) _ _ htz hrange
  · intro db now doff dp wp yp mp tzs n hpm ht hr1 hr2 h1 h2 h3 h4 h5
    have htz := resolveClientOffset_some_ok tzs doff n ht hr1 hr2
    have hrange : computeRange "monthly" dp wp yp mp now (-n) =
        .ok ⟨(pyFromInstant now (-n)).year, (pyFromInstant now (-n)).month,
             1, 0, 0, 0, 0, (pyFromInstant now (-n)).tzOffsetMinutes⟩
          ⟨if (pyFromInstant now (-n)).month = 12 then
              (pyFromInstant now (-n)).year + 1 else (pyFromInstant now (-n)).year,
           if (pyFromInstant now (-n)).month = 12 then 1
             else (pyFromInstant now (-n)).month + 1,
           1, 0, 0, 0, 0, (pyFromInstant now (-n)).tzOffsetMinutes⟩ := by
      rw [computeRange_monthly]
      exact computeMonthly_default yp mp _ (-n) hpm h1 h2 h3 h4 h5
    exact recap_view_ok_range db now doff "monthly" dp wp yp mp (some tzs)
      (-n) _ _ htz hrange
  · with_unfolding_all rfl
  · with_unfolding_all rfl

/-- C5 witness: the explicit branch applied at `year="2024"`,
`month="12"`, `tz_offset="0"`. -/
theorem recap_c5_monthly_witness :
    recap_view [] (utcInstant 2024 3 13 12 0 0) 0 "monthly" none none
      (some "2024") (some "12") (some "0") =
      .ok (buildPayload [] "monthly" ⟨2024, 12, 1, 0, 0, 0, 0, some (-0)⟩
        ⟨if (12 : ℤ) = 12 then 2024 + 1 else 2024,
         if (12 : ℤ) = 12 then 1 else 12 + 1, 1, 0, 0, 0, 0, some (-0)⟩) :=
  recap_c5_monthly.1 [] (utcInstant 2024 3 13 12 0 0) 0 none none "2024" "12"
    "0" 2024 12 0 (by decide) (by decide) (by decide) (by decide) (by decide)
    (by decide) (by decide) (by decide) (by decide) (by decide) (by decide)
    (fun _ => by decide)
